import Mathlib

/-!
Shallow embedding of the discovery/probe/aggregation core of
`fastapi_server.py` (UWB Navigator API gateway), together with theorems
settling the specification claims about it.

Modelling conventions:
* Python dicts used as ordered maps (`discovered_devices`,
  `device_data_cache`) are association lists `List (String × α)` that
  preserve insertion order; updating an existing key keeps its position,
  inserting a new key appends at the end — exactly CPython dict semantics.
* Wall-clock timestamps (`datetime.now().isoformat()`) are integers
  (seconds); `timedelta(minutes=2)` is the constant 120.  Comparison of
  parsed ISO timestamps becomes integer comparison.
* The HTTP client is an oracle mapping (address, port) to the outcome of
  each GET; an outcome distinguishes a raised exception, a response with a
  non-200 code, a body whose JSON parse raises, a body that parses but is
  not a list (for the list endpoints), and success.
* `socket.inet_ntoa` / `inet_ntop` are external library functions, so a raw
  discovery address is modelled by which of the three source branches it
  takes (4 bytes, 16 bytes, other length) together with the string the
  library renders it to; an address whose parse raises is its own case.
* Logging calls are no-ops and are dropped.  `broadcast_update` is
  modelled by a broadcast counter on the server state (the subscriber
  list is outside the claims considered here).
-/

namespace UWBNav

/-- Lookup in an ordered association list, i.e. Python `d.get(k)`
(dict keys are unique, so the first occurrence is the value). -/
def lookupA {α : Type} : List (String × α) → String → Option α
  | [], _ => none
  | p :: rest, k => if p.1 = k then some p.2 else lookupA rest k

/-- Update in an ordered association list, i.e. Python `d[k] = v`:
an existing key keeps its position (dict keys are unique, so replacing
the first occurrence suffices), a new key is appended at the end. -/
def setA {α : Type} : List (String × α) → String → α → List (String × α)
  | [], k, v => [(k, v)]
  | p :: rest, k, v =>
      if p.1 = k then (k, v) :: rest else p :: setA rest k v

/-- Python `a if a is not None else b` over optionals (`dict.get(k1, d.get(k2))`). -/
def firstSome {α : Type} : Option α → Option α → Option α
  | some x, _ => some x
  | none, b => b

/-- The set of addresses parsed from one discovery announcement:
the `addresses` dict built by `_parse_addresses`, holding at most an
`ipv4` and an `ipv6` entry. -/
structure AddrSet where
  ipv4 : Option String
  ipv6 : Option String
deriving DecidableEq, Repr

/-- Python truthiness of the `addresses` dict: nonempty. -/
def AddrSet.isTruthy (a : AddrSet) : Bool :=
  a.ipv4.isSome || a.ipv6.isSome

/-- Python truthiness of an optional string (`None` and `""` are falsy). -/
def strTruthy : Option String → Bool
  | none => false
  | some s => s ≠ ""

/-- Python truthiness of an optional port number (`None` and `0` are falsy). -/
def portTruthy : Option Nat → Bool
  | none => false
  | some p => p ≠ 0

/-- One raw address from a discovery announcement, classified by the
branch `_parse_addresses` takes on it.  The rendered string produced by
the external `socket` library is carried as data. -/
inductive RawAddr where
  /-- A 4-byte address, rendered by `socket.inet_ntoa` as `s`. -/
  | v4 (s : String)
  /-- A 16-byte address, rendered by `socket.inet_ntop` as `s`
  (possibly still carrying a `%zone` suffix). -/
  | v6 (s : String)
  /-- An address of any other byte length (logged and skipped). -/
  | badLen (n : Nat)
  /-- An address whose parse raises (logged and skipped). -/
  | exnAddr
deriving DecidableEq, Repr

/-- The zone-index strip `addr.split('%')[0]`. -/
def stripZone (s : String) : String :=
  match s.splitOn "%" with
  | [] => s
  | h :: _ => h

/-- Embedding of `IOSDeviceListener._parse_addresses`: fold the raw
addresses left to right, later addresses of the same family overwriting
earlier ones, unparseable entries skipped. -/
def parseAddresses (raw : List RawAddr) : AddrSet :=
  raw.foldl
    (fun acc a =>
      match a with
      | .v4 s => { acc with ipv4 := some s }
      | .v6 s => { acc with ipv6 := some (stripZone s) }
      | .badLen _ => acc
      | .exnAddr => acc)
    ⟨none, none⟩

/-- A device record, i.e. the `device_info` dict stored in
`discovered_devices`.  Keys that the source only sometimes writes are
optionals (`none` = key absent).  `last_error_detail` models the error
detail slot the specification expects on a record; the source never
writes any such key, so it is `none` in every record the source builds
and is never assigned afterwards. -/
structure DeviceInfo where
  id : String
  name : String
  email : String
  role : String
  addresses : Option AddrSet
  ip : Option String
  port : Option Nat
  service_name : String
  last_seen : Int
  status : String
  txt_data : List (String × String)
  last_successful_fetch : Option Int
  working_address : Option String
  manual : Bool
  last_error_detail : Option String
deriving DecidableEq, Repr

/-- One merged-list item (an anchor or navigator dict): the keys the
aggregation logic reads or writes, plus an opaque `body` for the rest of
the payload.  `id` is optional because cached telemetry items come from
device JSON and may lack the key (`anchor.get('id')`). -/
structure Item where
  id : Option String
  name : Option String
  status : Option String
  battery : Option Int
  connectedNavigators : Option Nat
  connectedAnchors : Option Nat
  destination : Option String
  error_message : Option String
  source_device : Option String
  source_ip : Option String
  body : String
deriving DecidableEq, Repr

/-- The parsed body of a `/api/status` response: the aggregation logic
only reads `batteryLevel`; the rest is opaque. -/
structure StatusData where
  batteryLevel : Option Int
  rest : String
deriving DecidableEq, Repr

/-- The default `{}` written into `data['status']`. -/
def StatusData.empty : StatusData := ⟨none, ""⟩

/-- A telemetry cache entry: the `data` dict written into
`device_data_cache` by `fetch_device_data`.  The source stores
`device_info` as a reference to the live device dict, which is mutated
(status, port, working address) after the dict is built; the embedding
stores the final value of that dict, i.e. the state observable once
`fetch_device_data` returns.  `distances` is an opaque JSON object,
with the empty-object default modelled as `""`. -/
structure CachedData where
  device_id : String
  device_info : DeviceInfo
  timestamp : Int
  status : StatusData
  anchors : List Item
  navigators : List Item
  distances : String
deriving DecidableEq, Repr

/-- The mutable global state of the server: `discovered_devices`,
`device_data_cache`, and a counter of `broadcast_update` calls. -/
structure ServerState where
  discovered_devices : List (String × DeviceInfo)
  device_data_cache : List (String × CachedData)
  broadcasts : Nat
deriving DecidableEq, Repr

/-- A resolved service announcement as delivered by
`zeroconf.get_service_info`: raw addresses, port, and the decoded TXT
record (`info.properties` is a dict, so its keys are unique). -/
structure ServiceInfo where
  addresses : List RawAddr
  port : Option Nat
  properties : List (String × String)
deriving DecidableEq, Repr

/-- The duplicate-eviction step inside `IOSDeviceListener.add_service`
(lines 57-64): when the incoming `device_id` already has a record whose
`service_name` differs from the incoming name, delete every other entry
that shares the prior record's `service_name`. -/
def evictDuplicates (devices : List (String × DeviceInfo)) (device_id : String)
    (name : String) : List (String × DeviceInfo) :=
  match lookupA devices device_id with
  | some ex =>
      if ex.service_name ≠ name then
        devices.filter (fun p => !(p.2.service_name == ex.service_name && p.1 != device_id))
      else devices
  | none => devices

/-- The fresh `device_info` dict built by `add_service` for an
announcement `name` resolved to `info`, at time `now`. -/
def mkDeviceInfo (now : Int) (name : String) (info : ServiceInfo) : DeviceInfo :=
  let addresses := parseAddresses info.addresses
  let txt := info.properties
  { id := (lookupA txt "deviceId").getD name
    name := (lookupA txt "deviceName").getD "Unknown Device"
    email := (lookupA txt "email").getD "unknown"
    role := (lookupA txt "role").getD "unknown"
    addresses := some addresses
    ip := firstSome addresses.ipv4 addresses.ipv6
    port := info.port
    service_name := name
    last_seen := now
    status := "discovered"
    txt_data := txt
    last_successful_fetch := none
    working_address := none
    manual := false
    last_error_detail := none }

/-- Embedding of `IOSDeviceListener.add_service` (and `update_service`,
which just delegates to it): when the service resolves, run the
duplicate eviction and store the freshly built record under its device
id.  When `get_service_info` returns `None`, nothing happens.  The
immediate probe it schedules is a separate asynchronous step, modelled
by composing `fetchDeviceData` explicitly. -/
def addService (s : ServerState) (now : Int) (name : String)
    (infoOpt : Option ServiceInfo) : ServerState :=
  match infoOpt with
  | none => s
  | some info =>
      let d := mkDeviceInfo now name info
      let devices1 := evictDuplicates s.discovered_devices d.id name
      { s with discovered_devices := setA devices1 d.id d }

/-- Mark the first record whose `service_name` matches as offline
(the loop in `remove_service` breaks after the first match). -/
def markFirstOffline : List (String × DeviceInfo) → String → List (String × DeviceInfo)
  | [], _ => []
  | (did, d) :: rest, name =>
      if d.service_name = name then (did, { d with status := "offline" }) :: rest
      else (did, d) :: markFirstOffline rest name

/-- Embedding of `IOSDeviceListener.remove_service`. -/
def removeService (s : ServerState) (name : String) : ServerState :=
  { s with discovered_devices := markFirstOffline s.discovered_devices name }

/-- The per-record decision of one sweep of `cleanup_stale_devices`:
a record is re-marked `stale` exactly when it carries a
`last_successful_fetch` strictly older than the two-minute cutoff and
its status is not `offline`. -/
def sweepRecord (now : Int) (d : DeviceInfo) : DeviceInfo :=
  match d.last_successful_fetch with
  | some t =>
      if t < now - 120 ∧ d.status ≠ "offline" then { d with status := "stale" } else d
  | none => d

/-- Whether one sweep marks this record stale (used for the broadcast
trigger: `stale_devices` nonempty). -/
def sweepHits (now : Int) (d : DeviceInfo) : Bool :=
  match d.last_successful_fetch with
  | some t => decide (t < now - 120) && d.status ≠ "offline"
  | none => false

/-- Embedding of one iteration of `cleanup_stale_devices`: sweep every
record, and broadcast when at least one was marked stale. -/
def sweepStale (s : ServerState) (now : Int) : ServerState :=
  let devices := s.discovered_devices.map (fun p => (p.1, sweepRecord now p.2))
  let anyStale := s.discovered_devices.any (fun p => sweepHits now p.2)
  { s with
    discovered_devices := devices
    broadcasts := s.broadcasts + (if anyStale then 1 else 0) }

/-- Outcome of one GET whose body, when it parses, is a JSON object
(`/api/status`, `/api/distances` — neither has a shape check). -/
inductive ObjResp (α : Type) where
  /-- The request raised (timeout, connection failure, ...). -/
  | exn
  /-- A response with status code `code`; `body = none` means `.json()`
  raised, `body = some v` means it parsed to `v`. -/
  | resp (code : Nat) (body : Option α)
deriving DecidableEq, Repr

/-- Parse outcome of a GET whose body is expected to be a JSON list
(`/api/anchors`, `/api/navigators`, guarded by `isinstance(_, list)`). -/
inductive ListBody where
  /-- The call to `.json()` raised. -/
  | parseErr
  /-- The body parsed but is not a list, so the `isinstance` check fails. -/
  | notList
  /-- The body parsed to a list of items. -/
  | list (xs : List Item)
deriving DecidableEq, Repr

/-- Outcome of one GET on a list endpoint. -/
inductive ListResp where
  /-- The request raised. -/
  | exn
  /-- A response with status code `code` and parse outcome `body`. -/
  | resp (code : Nat) (body : ListBody)
deriving DecidableEq, Repr

/-- The HTTP transport, as a deterministic oracle per (address, port).
The liveness check and the parallel data fetch both hit `/api/status`,
and get the same answer (the transport is assumed stable across one
probe). -/
structure HttpOracle where
  statusGet : String → Nat → ObjResp StatusData
  anchorsGet : String → Nat → ListResp
  navigatorsGet : String → Nat → ListResp
  distancesGet : String → Nat → ObjResp String

/-- One HTTP request issued by the probe engine, for the request-trace
part of the claims. -/
structure Request where
  address : String
  port : Nat
  path : String
deriving DecidableEq, Repr

/-- Whether the liveness check `GET {address}:{port}/api/status`
succeeds: no exception and status code 200 (the body is not parsed). -/
def livenessOk (ω : HttpOracle) (address : String) (port : Nat) : Bool :=
  match ω.statusGet address port with
  | .resp 200 _ => true
  | _ => false

/-- The ordered address list `addresses_to_try` built by
`fetch_device_data` (lines 145-155): when the `addresses` dict is
truthy, IPv4 then bracketed IPv6; otherwise fall back to the single
`ip` field.  The recorded `working_address` is not consulted. -/
def addressesToTry (d : DeviceInfo) : List String :=
  match d.addresses with
  | some a =>
      if a.isTruthy then
        (match a.ipv4 with | some v => [v] | none => []) ++
        (match a.ipv6 with | some v => ["[" ++ v ++ "]"] | none => [])
      else if strTruthy d.ip then [d.ip.getD ""] else []
  | none => if strTruthy d.ip then [d.ip.getD ""] else []

/-- The port list (line 163): the record's own port alone when truthy,
else the fixed fallback list. -/
def portsToTry (d : DeviceInfo) : List Nat :=
  if portTruthy d.port then [d.port.getD 0] else [8080, 8081, 8082, 8083]

/-- The (address, port) pairs in probe order: the nested
`for address ... for port ...` loops. -/
def pairsToTry (d : DeviceInfo) : List (String × Nat) :=
  (addressesToTry d).flatMap (fun a => (portsToTry d).map (fun p => (a, p)))

/-- The liveness request for a pair. -/
def livenessReq (q : String × Nat) : Request := ⟨q.1, q.2, "/api/status"⟩

/-- The four data-fetch requests issued in parallel (via
`asyncio.gather`) once liveness succeeds at (address, port); the batch
is recorded in issue order, parallelism itself being unobservable in
the trace. -/
def dataReqs (address : String) (port : Nat) : List Request :=
  [⟨address, port, "/api/status"⟩, ⟨address, port, "/api/anchors"⟩,
   ⟨address, port, "/api/navigators"⟩, ⟨address, port, "/api/distances"⟩]

/-- The `data` dict assembled from the four parallel responses
(lines 186-215): each field keeps its default empty value unless its
response is code 200 with a successfully parsed (and for the list
endpoints, list-shaped) body.  `dinfo` is the final value of the
aliased live device dict. -/
def buildCachedData (ω : HttpOracle) (now : Int) (device_id : String)
    (dinfo : DeviceInfo) (address : String) (port : Nat) : CachedData :=
  { device_id := device_id
    device_info := dinfo
    timestamp := now
    status :=
      match ω.statusGet address port with
      | .exn => StatusData.empty
      | .resp code body =>
          if code = 200 then
            match body with
            | some v => v
            | none => StatusData.empty
          else StatusData.empty
    anchors :=
      match ω.anchorsGet address port with
      | .exn => []
      | .resp code body =>
          if code = 200 then
            match body with
            | .list xs => xs
            | _ => []
          else []
    navigators :=
      match ω.navigatorsGet address port with
      | .exn => []
      | .resp code body =>
          if code = 200 then
            match body with
            | .list xs => xs
            | _ => []
          else []
    distances :=
      match ω.distancesGet address port with
      | .exn => ""
      | .resp code body =>
          if code = 200 then
            match body with
            | some v => v
            | none => ""
          else "" }

/-- The device record after a successful probe at (address, port)
(lines 219-222): status `connected`, fresh `last_successful_fetch`,
and the working port and address saved on the record. -/
def connectRecord (now : Int) (d : DeviceInfo) (address : String) (port : Nat) : DeviceInfo :=
  { d with
    status := "connected"
    last_successful_fetch := some now
    port := some port
    working_address := some address }

/-- The state written on a successful probe: fresh cache entry, updated
record, and one broadcast. -/
def successState (ω : HttpOracle) (now : Int) (device_id : String) (d : DeviceInfo)
    (s : ServerState) (address : String) (port : Nat) : ServerState :=
  let d' := connectRecord now d address port
  { discovered_devices := setA s.discovered_devices device_id d'
    device_data_cache :=
      setA s.device_data_cache device_id (buildCachedData ω now device_id d' address port)
    broadcasts := s.broadcasts + 1 }

/-- The state written when every pair has failed (lines 234-236):
only the status changes, to `error`.  No error detail is recorded
anywhere (the failure list is only logged). -/
def exhaustedState (device_id : String) (d : DeviceInfo) (s : ServerState) : ServerState :=
  { s with
    discovered_devices := setA s.discovered_devices device_id { d with status := "error" } }

/-- The nested pair loop of `fetch_device_data` (lines 166-232), with
the trace of HTTP requests it issues: each pair gets a liveness
request; the first pair whose liveness succeeds additionally gets the
four parallel data requests, the state is written and the function
returns; if no pair succeeds the record is marked `error`. -/
def tryPairs (ω : HttpOracle) (now : Int) (device_id : String) (d : DeviceInfo)
    (s : ServerState) : List (String × Nat) → ServerState × List Request
  | [] => (exhaustedState device_id d s, [])
  | q :: rest =>
      if livenessOk ω q.1 q.2 then
        (successState ω now device_id d s q.1 q.2, livenessReq q :: dataReqs q.1 q.2)
      else
        let r := tryPairs ω now device_id d s rest
        (r.1, livenessReq q :: r.2)

/-- Embedding of `fetch_device_data`: returns the new server state and
the trace of HTTP requests issued.  An unknown or offline device is
left untouched with no traffic; a device with no usable address is
marked `error` with no traffic; otherwise the pair loop runs. -/
def fetchDeviceData (ω : HttpOracle) (now : Int) (device_id : String)
    (s : ServerState) : ServerState × List Request :=
  match lookupA s.discovered_devices device_id with
  | none => (s, [])
  | some d =>
      if d.status = "offline" then (s, [])
      else if addressesToTry d = [] then
        ({ s with
           discovered_devices :=
             setA s.discovered_devices device_id { d with status := "error" } }, [])
      else
        tryPairs ω now device_id d s (pairsToTry d)

/-- The hard-coded name table in `get_display_name_for_uid`. -/
def knownDevices : List (String × String) :=
  [("0o3RPyMtuvSwy1G67WebWQNEQDg2", "subhavee1"),
   ("r11EHbHmQYONTjVBXwWp54fi5Ut1", "akshata"),
   ("sk8ZPKzrHZcmabLXtEMxZJ6fpF13", "elena"),
   ("lTgHZ1VtdHM2EEPqpDLsPER1gnJ2", "adpatil989"),
   ("4061215B-9D0D-4532-B593-04A214A7AF06", "subhavee1"),
   ("AFE370FE-2C4C-4752-A73B-B479EAA892B0", "akshata"),
   ("794E13A3-0B3F-4834-B94C-9E7CFF960B1C", "elena"),
   ("F6A209A8-53D3-4D76-B84D-77B08ACACB83", "adpatil989")]

/-- Embedding of `get_display_name_for_uid`. -/
def getDisplayNameForUid (uid : String) : String :=
  if uid.startsWith "0o3RPyMtuvSwy1G" then "subhavee1"
  else if uid.startsWith "r11EHbHmQYONTjV" then "akshata"
  else if uid.startsWith "sk8ZPKzrHZcmabL" then "elena"
  else if uid.startsWith "lTgHZ1VtdHM2EEP" then "adpatil989"
  else (lookupA knownDevices uid).getD (uid.take 8 ++ "...")

/-- The hard-coded destination table in `get_destination_for_uid`. -/
def destinationsTable : List (String × String) :=
  [("0o3RPyMtuvSwy1G67WebWQNEQDg2", "Window"),
   ("r11EHbHmQYONTjVBXwWp54fi5Ut1", "Kitchen"),
   ("sk8ZPKzrHZcmabLXtEMxZJ6fpF13", "Meeting Room"),
   ("4061215B-9D0D-4532-B593-04A214A7AF06", "Window"),
   ("AFE370FE-2C4C-4752-A73B-B479EAA892B0", "Kitchen"),
   ("794E13A3-0B3F-4834-B94C-9E7CFF960B1C", "Meeting Room")]

/-- Embedding of `get_destination_for_uid`. -/
def getDestinationForUid (uid : String) : String :=
  if uid.startsWith "0o3RPyMtuvSwy1G" || uid == "4061215B-9D0D-4532-B593-04A214A7AF06" then
    "Window"
  else if uid.startsWith "r11EHbHmQYONTjV" || uid == "AFE370FE-2C4C-4752-A73B-B479EAA892B0" then
    "Kitchen"
  else if uid.startsWith "sk8ZPKzrHZcmabL" || uid == "794E13A3-0B3F-4834-B94C-9E7CFF960B1C" then
    "Meeting Room"
  else (lookupA destinationsTable uid).getD "Unknown"

/-- The address reported for a record in aggregated output:
`device_info.get('working_address', device_info.get('ip'))`. -/
def reachIp (d : DeviceInfo) : Option String :=
  firstSome d.working_address d.ip

/-- Python string interpolation of an optional value (`None` renders as
the literal string `None`). -/
def pyStr : Option String → String
  | some s => s
  | none => "None"

/-- The placeholder anchor dict synthesized by `get_aggregated_data`
(lines 283-300) for an unreachable device of role `anchor`. -/
def anchorPlaceholder (device_id : String) (d : DeviceInfo) : Item :=
  let emailUid := d.email
  let displayName :=
    if emailUid ≠ "unknown" then getDisplayNameForUid emailUid
    else getDisplayNameForUid device_id
  let destination :=
    if emailUid ≠ "unknown" then getDestinationForUid emailUid
    else getDestinationForUid device_id
  { id := some device_id
    name := some displayName
    status := some "error"
    battery := none
    connectedNavigators := some 0
    connectedAnchors := none
    destination := some destination
    error_message := some ("Device unreachable at " ++ pyStr (reachIp d))
    source_device := some d.email
    source_ip := reachIp d
    body := "" }

/-- The placeholder navigator dict (lines 301-313); its display name is
looked up from the device id, not the email field. -/
def navigatorPlaceholder (device_id : String) (d : DeviceInfo) : Item :=
  { id := some device_id
    name := some (getDisplayNameForUid device_id)
    status := some "error"
    battery := none
    connectedNavigators := none
    connectedAnchors := some 0
    destination := none
    error_message := some ("Device unreachable at " ++ pyStr (reachIp d))
    source_device := some d.email
    source_ip := reachIp d
    body := "" }

/-- One entry of the `devices` list in the aggregated snapshot. -/
structure DeviceSummary where
  id : String
  name : String
  email : String
  role : String
  addresses : AddrSet
  ip : Option String
  port : Option Nat
  status : String
  last_seen : Int
  battery : Option Int
deriving DecidableEq, Repr

/-- The `devices` entry built for one record (lines 267-278); battery
comes from the cached telemetry status when present. -/
def mkSummary (cache : List (String × CachedData)) (device_id : String)
    (d : DeviceInfo) : DeviceSummary :=
  { id := device_id
    name := d.name
    email := d.email
    role := d.role
    addresses := d.addresses.getD ⟨none, none⟩
    ip := d.ip
    port := d.port
    status := d.status
    last_seen := d.last_seen
    battery := (lookupA cache device_id).bind (fun c => c.status.batteryLevel) }

/-- The unreachable statuses that trigger placeholder synthesis. -/
def statusErrLike (st : String) : Bool :=
  st == "error" || st == "offline" || st == "stale"

/-- The placeholder-synthesis step of the first aggregation loop
(lines 281-313), accumulating the (anchors, navigators) lists. -/
def placeholderStep (acc : List Item × List Item)
    (p : String × DeviceInfo) : List Item × List Item :=
  if statusErrLike p.2.status && p.2.role != "" then
    if p.2.role = "anchor" then (acc.1 ++ [anchorPlaceholder p.1 p.2], acc.2)
    else if p.2.role = "navigator" then (acc.1, acc.2 ++ [navigatorPlaceholder p.1 p.2])
    else acc
  else acc

/-- The dedupe-by-id append of the cache loop: skip the incoming item
when some already-present item carries the same `id`.  This is the
totalized denotation of the source's check
`any(a['id'] == anchor.get('id') for a in all_anchors)`; the faithful
partial semantics, in which reading `a['id']` of an already-present
item stored without an id key raises KeyError, is `addCachedE` below,
and the two agree whenever every already-present item carries an id —
the only region in which the source's merge completes at all. -/
def addCached (lst : List Item) (item : Item) : List Item :=
  if lst.any (fun a => a.id == item.id) then lst else lst ++ [item]

/-- The generator scan of
`any(a['id'] == anchor.get('id') for a in lst)` with Python's exact
evaluation order: items are visited left to right, `any` short-circuits
at the first match, and evaluating `a['id']` of an item that has no id
key raises KeyError (`Except.error ()`).  A present id `s` matches the
incoming `x : Option String` exactly when `x = some s` (in Python,
`'s' == None` is `False`). -/
def anyIdMatchE : List Item → Option String → Except Unit Bool
  | [], _ => .ok false
  | a :: rest, x =>
      match a.id with
      | none => .error ()
      | some s => if x = some s then .ok true else anyIdMatchE rest x

/-- The dedupe-by-id append with the KeyError path kept: the scan may
raise, a match skips the item, otherwise it is appended. -/
def addCachedE (lst : List Item) (item : Item) : Except Unit (List Item) :=
  match anyIdMatchE lst item.id with
  | .error e => .error e
  | .ok true => .ok lst
  | .ok false => .ok (lst ++ [item])

/-- The source-annotation writes `anchor['source_device'] = ...`,
`anchor['source_ip'] = ...` done before the dedupe check. -/
def withSource (email : String) (srcIp : Option String) (a : Item) : Item :=
  { a with source_device := some email, source_ip := srcIp }

/-- The source annotation `discovered_devices.get(device_id, {}).get('email', 'unknown')`. -/
def sourceEmail (devices : List (String × DeviceInfo)) (device_id : String) : String :=
  match lookupA devices device_id with
  | some d => d.email
  | none => "unknown"

/-- The source annotation
`device_info.get('working_address', device_info.get('ip'))` for a cache
entry whose device may be unknown to the registry. -/
def sourceIpOf (devices : List (String × DeviceInfo)) (device_id : String) : Option String :=
  match lookupA devices device_id with
  | some d => reachIp d
  | none => none

/-- The second aggregation loop's step for one cache entry
(lines 316-335): annotate each cached anchor and navigator with its
source device, then append unless an item with the same id is already
present. -/
def cacheStep (devices : List (String × DeviceInfo)) (acc : List Item × List Item)
    (p : String × CachedData) : List Item × List Item :=
  let email := sourceEmail devices p.1
  let srcIp := sourceIpOf devices p.1
  (p.2.anchors.foldl (fun lst a => addCached lst (withSource email srcIp a)) acc.1,
   p.2.navigators.foldl (fun lst n => addCached lst (withSource email srcIp n)) acc.2)

/-- The aggregated snapshot returned by `get_aggregated_data`. -/
structure Snapshot where
  devices : List DeviceSummary
  anchors : List Item
  navigators : List Item
  timestamp : Int
  connection_count : Nat
deriving DecidableEq, Repr

/-- Embedding of `get_aggregated_data`.  The source's first loop builds
`devices_info` and the placeholder lists together; the two computations
touch disjoint lists, so they are split here into a map and a fold over
the same registry in the same order.  The second loop then merges the
cached telemetry with dedupe by id, placeholders having been written
first. -/
def getAggregatedData (s : ServerState) (now : Int) : Snapshot :=
  let devices_info := s.discovered_devices.map (fun p => mkSummary s.device_data_cache p.1 p.2)
  let placeholders := s.discovered_devices.foldl placeholderStep ([], [])
  let merged := s.device_data_cache.foldl (cacheStep s.discovered_devices) placeholders
  { devices := devices_info
    anchors := merged.1
    navigators := merged.2
    timestamp := now
    connection_count :=
      (s.discovered_devices.filter (fun p => p.2.status == "connected")).length }

/-- The cache-merge step with the KeyError path kept: both item loops
run the partial dedupe scan, and the first raise aborts the step. -/
def cacheStepE (devices : List (String × DeviceInfo)) (acc : List Item × List Item)
    (p : String × CachedData) : Except Unit (List Item × List Item) := do
  let email := sourceEmail devices p.1
  let srcIp := sourceIpOf devices p.1
  let ans ← p.2.anchors.foldlM
    (fun lst a => addCachedE lst (withSource email srcIp a)) acc.1
  let navs ← p.2.navigators.foldlM
    (fun lst n => addCachedE lst (withSource email srcIp n)) acc.2
  pure (ans, navs)

/-- The aggregation with the KeyError path kept: a raise anywhere in
the merge loops aborts the whole snapshot, exactly as an uncaught
KeyError aborts `get_aggregated_data`.  `getAggregatedData` above is
the total denotation of the non-raising runs; their agreement on the
region where every cached item carries an id is proved below. -/
def getAggregatedDataE (s : ServerState) (now : Int) : Except Unit Snapshot := do
  let merged ← s.device_data_cache.foldlM (cacheStepE s.discovered_devices)
    (s.discovered_devices.foldl placeholderStep ([], []))
  pure
    { devices := s.discovered_devices.map (fun p => mkSummary s.device_data_cache p.1 p.2)
      anchors := merged.1
      navigators := merged.2
      timestamp := now
      connection_count :=
        (s.discovered_devices.filter (fun p => p.2.status == "connected")).length }

/-- One probe-attempt diagnostic record, as the specification describes
it (addresses tried, ports tried, success flag, working URL). -/
structure AttemptEntry where
  addressesTried : List String
  portsTried : List Nat
  success : Bool
  workingUrl : Option String
deriving DecidableEq, Repr

/-- Following the specification's words for the AttemptLog: append an
attempt to a bounded ring keeping only the last 10 entries.  Stated
from the spec, for comparison with what the source actually maintains. -/
def specAppendAttempt (e : AttemptEntry) (log : List AttemptEntry) : List AttemptEntry :=
  let l := log ++ [e]
  l.drop (l.length - 10)

/-- The attempt log observable in the server state.  The source
maintains no attempt log of any kind: `fetch_device_data` records
attempts only through logger calls, and no field of the global state
stores them.  The per-peer attempt log is therefore always empty. -/
def attemptLog (_ : ServerState) (_ : String) : List AttemptEntry := []

/-! ### Concrete fixtures for witnesses and counterexamples -/

/-- A discovered anchor device with an IPv4 and an IPv6 address. -/
def deviceD1 : DeviceInfo :=
  { id := "d1"
    name := "Device One"
    email := "unknown"
    role := "anchor"
    addresses := some ⟨some "10.0.0.5", some "fe80::1"⟩
    ip := some "10.0.0.5"
    port := some 8080
    service_name := "svc1._uwbnav-http._tcp.local."
    last_seen := 0
    status := "discovered"
    txt_data := []
    last_successful_fetch := none
    working_address := none
    manual := false
    last_error_detail := none }

/-- The same device with no advertised port, so the probe uses the
fallback port list. -/
def deviceNoPort : DeviceInfo := { deviceD1 with port := none }

/-- A device whose last successful probe used its IPv6 address and
port 9000. -/
def devWorkingV6 : DeviceInfo :=
  { deviceD1 with
    working_address := some "[fe80::1]"
    port := some 9000
    status := "connected"
    last_successful_fetch := some 100 }

/-- A device with a known primary port and no recorded working pair. -/
def devPrimaryOnly : DeviceInfo := { deviceD1 with port := some 9000 }

/-- A connected device that has never had a successful fetch recorded. -/
def devNoFetch : DeviceInfo := { deviceD1 with status := "connected" }

/-- A connected device whose last successful fetch is old. -/
def devOldFetch : DeviceInfo :=
  { deviceD1 with status := "connected", last_successful_fetch := some 100 }

/-- A cached telemetry item. -/
def itemA1 : Item :=
  { id := some "anchor-1"
    name := some "A1"
    status := some "active"
    battery := some 90
    connectedNavigators := some 2
    connectedAnchors := none
    destination := some "Window"
    error_message := none
    source_device := none
    source_ip := none
    body := "a1" }

/-- An oracle that is alive only at `10.0.0.5:8081`; there the anchors
fetch succeeds, the navigators fetch gets a 500, and the distances
body does not parse. -/
def oracle1 : HttpOracle :=
  { statusGet := fun a p =>
      if a = "10.0.0.5" ∧ p = 8081 then .resp 200 (some ⟨some 87, "ok"⟩) else .exn
    anchorsGet := fun a p =>
      if a = "10.0.0.5" ∧ p = 8081 then .resp 200 (.list [itemA1]) else .exn
    navigatorsGet := fun _ _ => .resp 500 .parseErr
    distancesGet := fun _ _ => .resp 200 none }

/-- An oracle for which every request raises. -/
def failOracle : HttpOracle :=
  { statusGet := fun _ _ => .exn
    anchorsGet := fun _ _ => .exn
    navigatorsGet := fun _ _ => .exn
    distancesGet := fun _ _ => .exn }

/-- The empty server state. -/
def state0 : ServerState := ⟨[], [], 0⟩

/-- One discovered device without a port. -/
def state1 : ServerState := ⟨[("d1", deviceNoPort)], [], 0⟩

/-- One connected device with no recorded fetch timestamp. -/
def state3 : ServerState := ⟨[("d1", devNoFetch)], [], 0⟩

/-- One connected device with an old fetch timestamp. -/
def state3w : ServerState := ⟨[("d1", devOldFetch)], [], 0⟩

/-- A cache entry for `d1` holding earlier telemetry. -/
def cacheD1 : CachedData :=
  { device_id := "d1"
    device_info := deviceD1
    timestamp := 1
    status := ⟨some 55, "old"⟩
    anchors := [itemA1]
    navigators := []
    distances := "" }

/-- One discovered device together with its previously cached telemetry. -/
def state6 : ServerState := ⟨[("d1", deviceD1)], [("d1", cacheD1)], 0⟩

/-- A record for `d1` announced under source name `svcA`. -/
def exRecD1 : DeviceInfo := { deviceD1 with service_name := "svcA" }

/-- A stale record keyed by the raw service name, sharing `svcA`. -/
def dupRec : DeviceInfo :=
  { deviceD1 with id := "svcA", service_name := "svcA", role := "unknown" }

/-- An unrelated record under a different source name. -/
def otherRec : DeviceInfo :=
  { deviceD1 with id := "d2", service_name := "svcC", role := "navigator" }

/-- An announcement of `d1` under the new source name `svcB`. -/
def infoC4 : ServiceInfo :=
  { addresses := [RawAddr.v4 "10.0.0.7"]
    port := some 8080
    properties := [("deviceId", "d1"), ("deviceName", "Device One"),
                   ("email", "e1@x"), ("role", "anchor")] }

/-- Registry holding the duplicate pair plus an unrelated record. -/
def state4 : ServerState :=
  ⟨[("svcA", dupRec), ("d1", exRecD1), ("d2", otherRec)], [], 0⟩

/-- An unreachable anchor device. -/
def devErrAnchor : DeviceInfo := { deviceD1 with status := "error" }

/-- Registry with the unreachable anchor and cached telemetry whose
items carry a different id. -/
def state5 : ServerState := ⟨[("d1", devErrAnchor)], [("d1", cacheD1)], 0⟩

/-- A stale navigator device. -/
def devErrNav : DeviceInfo :=
  { deviceD1 with
    id := "d9"
    role := "navigator"
    status := "stale"
    service_name := "svc9._uwbnav-http._tcp.local." }

/-- Registry with the stale navigator and cached telemetry whose items
carry different ids. -/
def state5n : ServerState := ⟨[("d9", devErrNav)], [("d9", cacheD1)], 0⟩

/-- A record under a different source name, ahead of `d1` in the
registry. -/
def dev0 : DeviceInfo := { deviceD1 with id := "d0", service_name := "svc0" }

/-- Registry for the removal scenario. -/
def state9 : ServerState := ⟨[("d0", dev0), ("d1", deviceD1)], [], 0⟩

/-- An announcement with no parseable addresses. -/
def noAddrInfo : ServiceInfo :=
  { addresses := [RawAddr.badLen 6, RawAddr.exnAddr]
    port := some 8080
    properties := [("deviceId", "d8"), ("deviceName", "Dev Eight"),
                   ("email", "e8@x"), ("role", "anchor")] }

/-- A connected record with recorded working pair, to be replaced by a
fresh announcement. -/
def devConnectedFull : DeviceInfo :=
  { deviceD1 with
    status := "connected"
    last_successful_fetch := some 50
    working_address := some "10.0.0.5" }

/-- Registry holding the connected record. -/
def state10 : ServerState := ⟨[("d1", devConnectedFull)], [], 0⟩

/-- A fresh announcement of `d1` under its old source name. -/
def infoC10 : ServiceInfo :=
  { addresses := [RawAddr.v4 "10.0.0.9"]
    port := some 8080
    properties := [("deviceId", "d1"), ("deviceName", "Device One"),
                   ("email", "e1@x"), ("role", "anchor")] }

/-- The id-match predicate used to talk about dedupe by item identity. -/
def hasId (x : String) (a : Item) : Bool := a.id == some x

/-- The registry records for which the first aggregation loop writes an
anchor placeholder (unreachable status and role `anchor`). -/
def anchorCond (p : String × DeviceInfo) : Bool :=
  statusErrLike p.2.status && p.2.role == "anchor"

/-- The registry records for which the first aggregation loop writes a
navigator placeholder. -/
def navCond (p : String × DeviceInfo) : Bool :=
  statusErrLike p.2.status && p.2.role == "navigator"

/-! ### Association-list lemmas -/

theorem lookupA_setA_self {α : Type} (l : List (String × α)) (k : String) (v : α) :
    lookupA (setA l k v) k = some v := by
  induction l with
  | nil => simp [setA, lookupA]
  | cons p rest ih =>
      by_cases h : p.1 = k
      · simp [setA, h, lookupA]
      · simp [setA, h, lookupA, ih]

theorem lookupA_setA_ne {α : Type} (l : List (String × α)) (k k' : String) (v : α)
    (h : k' ≠ k) : lookupA (setA l k v) k' = lookupA l k' := by
  have hkk : ¬(k = k') := fun hh => h hh.symm
  induction l with
  | nil => simp [setA, lookupA, hkk]
  | cons p rest ih =>
      by_cases hp : p.1 = k
      · simp [setA, hp, lookupA, hkk]
      · by_cases hp' : p.1 = k'
        · simp [setA, hp, lookupA, hp', h]
        · simp [setA, hp, lookupA, hp', ih]

theorem lookupA_mapVal {α β : Type} (f : α → β) (l : List (String × α)) (k : String) :
    lookupA (l.map (fun p => (p.1, f p.2))) k = (lookupA l k).map f := by
  induction l with
  | nil => simp [lookupA]
  | cons p rest ih =>
      by_cases h : p.1 = k
      · simp [lookupA, h]
      · simp [lookupA, h, ih]

theorem lookupA_filter_keep {α : Type} (pred : String × α → Bool)
    (l : List (String × α)) (k : String)
    (h : ∀ p ∈ l, p.1 = k → pred p = true) :
    lookupA (l.filter pred) k = lookupA l k := by
  induction l with
  | nil => simp
  | cons p rest ih =>
      have ih' := ih (fun q hq => h q (by simp [hq]))
      by_cases hk : p.1 = k
      · have : pred p = true := h p (by simp) hk
        simp [List.filter_cons, this, lookupA, hk]
      · by_cases hp : pred p
        · simp [List.filter_cons, hp, lookupA, hk, ih']
        · simp only [List.filter_cons, Bool.not_eq_true] at hp ⊢
          simp [hp, lookupA, hk, ih']

theorem lookupA_filter_none {α : Type} (pred : String × α → Bool)
    (l : List (String × α)) (k : String)
    (h : ∀ p ∈ l, p.1 = k → pred p = false) :
    lookupA (l.filter pred) k = none := by
  induction l with
  | nil => simp [lookupA]
  | cons p rest ih =>
      have ih' := ih (fun q hq => h q (by simp [hq]))
      by_cases hk : p.1 = k
      · have : pred p = false := h p (by simp) hk
        simp [List.filter_cons, this, ih']
      · by_cases hp : pred p
        · simp [List.filter_cons, hp, lookupA, hk, ih']
        · simp only [List.filter_cons, Bool.not_eq_true] at hp ⊢
          simp [hp, ih']

theorem lookupA_mem {α : Type} (l : List (String × α)) (k : String) (v : α)
    (h : lookupA l k = some v) : (k, v) ∈ l := by
  induction l with
  | nil => simp [lookupA] at h
  | cons p rest ih =>
      obtain ⟨p1, p2⟩ := p
      by_cases hk : p1 = k
      · subst hk
        simp [lookupA] at h
        subst h
        exact List.mem_cons_self _ _
      · simp [lookupA, hk] at h
        exact List.mem_cons_of_mem _ (ih h)

/-! ### Probe-loop lemmas -/

theorem tryPairs_all_fail (ω : HttpOracle) (now : Int) (id : String) (d : DeviceInfo)
    (s : ServerState) :
    ∀ pairs : List (String × Nat), (∀ q ∈ pairs, livenessOk ω q.1 q.2 = false) →
      tryPairs ω now id d s pairs = (exhaustedState id d s, pairs.map livenessReq)
  | [], _ => by simp [tryPairs]
  | q :: rest, hfail => by
      have hq : livenessOk ω q.1 q.2 = false := hfail q (by simp)
      have ih := tryPairs_all_fail ω now id d s rest (fun r hr => hfail r (by simp [hr]))
      simp [tryPairs, hq, ih]

theorem tryPairs_first_success (ω : HttpOracle) (now : Int) (id : String) (d : DeviceInfo)
    (s : ServerState) (a : String) (p : Nat) (hlive : livenessOk ω a p = true) :
    ∀ pre : List (String × Nat), ∀ post : List (String × Nat),
      (∀ q ∈ pre, livenessOk ω q.1 q.2 = false) →
      tryPairs ω now id d s (pre ++ (a, p) :: post) =
        (successState ω now id d s a p,
         pre.map livenessReq ++ (livenessReq (a, p) :: dataReqs a p))
  | [], post, _ => by simp [tryPairs, hlive]
  | q :: pre, post, hpre => by
      have hq : livenessOk ω q.1 q.2 = false := hpre q (by simp)
      have ih := tryPairs_first_success ω now id d s a p hlive pre post
        (fun r hr => hpre r (by simp [hr]))
      simp [tryPairs, hq, ih]

theorem pairsToTry_empty_of_no_address (d : DeviceInfo)
    (h : addressesToTry d = []) : pairsToTry d = [] := by
  simp [pairsToTry, h]

theorem fetch_success_eq (ω : HttpOracle) (now : Int) (id : String) (d : DeviceInfo)
    (s : ServerState) (pre post : List (String × Nat)) (a : String) (p : Nat)
    (hd : lookupA s.discovered_devices id = some d)
    (hoff : d.status ≠ "offline")
    (hpairs : pairsToTry d = pre ++ (a, p) :: post)
    (hpre : ∀ q ∈ pre, livenessOk ω q.1 q.2 = false)
    (hlive : livenessOk ω a p = true) :
    fetchDeviceData ω now id s =
      (successState ω now id d s a p,
       pre.map livenessReq ++ (livenessReq (a, p) :: dataReqs a p)) := by
  have haddr : ¬(addressesToTry d = []) := by
    intro h0
    rw [pairsToTry_empty_of_no_address d h0] at hpairs
    exact List.cons_ne_nil _ _ (List.append_eq_nil.mp hpairs.symm).2
  rw [show fetchDeviceData ω now id s = tryPairs ω now id d s (pairsToTry d) by
        simp [fetchDeviceData, hd, hoff, haddr]]
  rw [hpairs]
  exact tryPairs_first_success ω now id d s a p hlive pre post hpre

theorem fetch_exhaust_eq (ω : HttpOracle) (now : Int) (id : String) (d : DeviceInfo)
    (s : ServerState)
    (hd : lookupA s.discovered_devices id = some d)
    (hoff : d.status ≠ "offline")
    (haddr : addressesToTry d ≠ [])
    (hfail : ∀ q ∈ pairsToTry d, livenessOk ω q.1 q.2 = false) :
    fetchDeviceData ω now id s =
      (exhaustedState id d s, (pairsToTry d).map livenessReq) := by
  rw [show fetchDeviceData ω now id s = tryPairs ω now id d s (pairsToTry d) by
        simp [fetchDeviceData, hd, hoff, haddr]]
  exact tryPairs_all_fail ω now id d s (pairsToTry d) hfail

/-! ### Claim theorems -/

/-- C2 counterexample: a peer whose last successful probe used its IPv6
address (recorded working address `[fe80::1]`) is still probed IPv4
first — the probe order never consults the working address — and a peer
with a known primary port 9000 and no recorded working pair gets the
port list `[9000]` alone, not `[9000, 8080, 8081, 8082, 8083]` as the
claim requires. -/
theorem working_pair_order_cex :
    devWorkingV6.working_address = some "[fe80::1]" ∧
    addressesToTry devWorkingV6 = ["10.0.0.5", "[fe80::1]"] ∧
    addressesToTry devWorkingV6 ≠ ["[fe80::1]", "10.0.0.5"] ∧
    devPrimaryOnly.working_address = none ∧
    devPrimaryOnly.port = some 9000 ∧
    portsToTry devPrimaryOnly = [9000] ∧
    portsToTry devPrimaryOnly ≠ [9000, 8080, 8081, 8082, 8083] := by
  refine ⟨rfl, rfl, by decide, rfl, rfl, rfl, by decide⟩

/-- C2 (amended): the probe order is IPv4 before IPv6 whenever both are
known, independent of any recorded working address; the port list is
the record's single stored port when truthy (after a success this field
holds the working port), and the fallback list 8080-8083 is used only
when no port is stored — the fallback never follows a known port. -/
theorem probe_order_amended (d : DeviceInfo) (a4 a6 : String)
    (h : d.addresses = some ⟨some a4, some a6⟩) :
    addressesToTry d = [a4, "[" ++ a6 ++ "]"] ∧
    (∀ w, addressesToTry { d with working_address := w } = addressesToTry d) ∧
    (∀ q : Nat, q ≠ 0 →
      portsToTry { d with port := some q } = [q]) ∧
    portsToTry { d with port := none } = [8080, 8081, 8082, 8083] := by
  refine ⟨?_, ?_, ?_, ?_⟩
  · simp [addressesToTry, h, AddrSet.isTruthy]
  · intro w; simp [addressesToTry]
  · intro q hq; simp [portsToTry, portTruthy, hq]
  · simp [portsToTry, portTruthy]

/-- C2 witness: the amended order at the concrete device. -/
theorem probe_order_amended_witness :
    addressesToTry devWorkingV6 = ["10.0.0.5", "[" ++ "fe80::1" ++ "]"] :=
  (probe_order_amended devWorkingV6 "10.0.0.5" "fe80::1" rfl).1

/-- C3 counterexample: a `connected` record with no
`last_successful_fetch` timestamp is left untouched by the sweep,
whereas the claim requires an absent timestamp to force a transition to
`stale`. -/
theorem sweeper_absent_timestamp_cex :
    devNoFetch.status = "connected" ∧
    devNoFetch.last_successful_fetch = none ∧
    (lookupA (sweepStale state3 1000).discovered_devices "d1").map DeviceInfo.status =
      some "connected" ∧
    (lookupA (sweepStale state3 1000).discovered_devices "d1").map DeviceInfo.status ≠
      some "stale" := by
  refine ⟨rfl, rfl, by decide, by decide⟩

/-- C3 (amended): one sweep maps every record through `sweepRecord`; a
record is transitioned to `stale` only when a `last_successful_fetch`
timestamp is present and strictly older than the two-minute cutoff and
the status is not `offline`; an `offline` record and a record with an
absent timestamp are never touched, and the resulting status is `stale`
exactly when it already was or the transition fired. -/
theorem sweeper_amended (s : ServerState) (now : Int) (id : String) (d : DeviceInfo)
    (h : lookupA s.discovered_devices id = some d) :
    lookupA (sweepStale s now).discovered_devices id = some (sweepRecord now d) ∧
    (d.status = "offline" → sweepRecord now d = d) ∧
    (d.last_successful_fetch = none → sweepRecord now d = d) ∧
    (∀ t, d.last_successful_fetch = some t → d.status ≠ "offline" →
      sweepRecord now d = if t < now - 120 then { d with status := "stale" } else d) ∧
    ((sweepRecord now d).status = "stale" ↔
      d.status = "stale" ∨
        (d.status ≠ "offline" ∧ ∃ t, d.last_successful_fetch = some t ∧ t < now - 120)) := by
  refine ⟨?_, ?_, ?_, ?_, ?_⟩
  · have hmap := lookupA_mapVal (sweepRecord now) s.discovered_devices id
    simp only [sweepStale]
    rw [hmap, h]
    rfl
  · intro hoff
    cases hlsf : d.last_successful_fetch with
    | none => simp [sweepRecord, hlsf]
    | some t => simp [sweepRecord, hlsf, hoff]
  · intro hlsf; simp [sweepRecord, hlsf]
  · intro t hlsf hoff
    simp [sweepRecord, hlsf, hoff]
  · cases hlsf : d.last_successful_fetch with
    | none => simp [sweepRecord, hlsf]
    | some t =>
        simp only [sweepRecord, hlsf]
        by_cases hc : t < now - 120 ∧ d.status ≠ "offline"
        · rw [if_pos hc]
          constructor
          · intro _; exact Or.inr ⟨hc.2, t, rfl, hc.1⟩
          · intro _; rfl
        · rw [if_neg hc]
          constructor
          · intro hst; exact Or.inl hst
          · rintro (hst | ⟨hoff, t', ht', hlt⟩)
            · exact hst
            · injection ht' with ht''
              subst ht''
              exact absurd ⟨hlt, hoff⟩ hc

/-- C3 witness: a connected record with an old timestamp is marked
stale by the sweep. -/
theorem sweeper_amended_witness :
    lookupA (sweepStale state3w 1000).discovered_devices "d1" =
      some (sweepRecord 1000 devOldFetch) :=
  (sweeper_amended state3w 1000 "d1" devOldFetch (by decide)).1

/-- C9 helper: the removal loop marks the first matching record offline
and leaves everything else, before and after it, untouched. -/
theorem markFirstOffline_split (name : String) (id : String) (d : DeviceInfo)
    (hmatch : d.service_name = name) :
    ∀ pre post : List (String × DeviceInfo), (∀ p ∈ pre, p.2.service_name ≠ name) →
      markFirstOffline (pre ++ (id, d) :: post) name =
        pre ++ (id, { d with status := "offline" }) :: post
  | [], post, _ => by simp [markFirstOffline, hmatch]
  | q :: pre, post, hpre => by
      have ih := markFirstOffline_split name id d hmatch pre post
        (fun r hr => hpre r (by simp [hr]))
      obtain ⟨q1, q2⟩ := q
      have hq : q2.service_name ≠ name := hpre (q1, q2) (by simp)
      rw [List.cons_append, markFirstOffline, if_neg hq, ih, List.cons_append]

/-- C9: a removal event transitions the (unique) record whose
`service_name` matches to `offline` and changes nothing else: the
record keeps its position and every other field, no record is deleted,
and the cache and broadcast state are untouched. -/
theorem remove_service_marks_offline (s : ServerState) (name : String)
    (pre post : List (String × DeviceInfo)) (id : String) (d : DeviceInfo)
    (hsplit : s.discovered_devices = pre ++ (id, d) :: post)
    (hpre : ∀ p ∈ pre, p.2.service_name ≠ name)
    (hmatch : d.service_name = name) :
    (removeService s name).discovered_devices =
      pre ++ (id, { d with status := "offline" }) :: post ∧
    (removeService s name).device_data_cache = s.device_data_cache ∧
    (removeService s name).broadcasts = s.broadcasts := by
  refine ⟨?_, rfl, rfl⟩
  simp only [removeService, hsplit]
  exact markFirstOffline_split name id d hmatch pre post hpre

/-- C9 witness: removal of the matching service in a two-record
registry. -/
theorem remove_service_marks_offline_witness :
    (removeService state9 "svc1._uwbnav-http._tcp.local.").discovered_devices =
      [("d0", dev0)] ++ [("d1", { deviceD1 with status := "offline" })] :=
  (remove_service_marks_offline state9 "svc1._uwbnav-http._tcp.local."
    [("d0", dev0)] [] "d1" deviceD1 rfl (by decide) rfl).1

/-- C10: an appeared/updated announcement for an already-known PeerId
replaces the stored record wholesale with the freshly built one — the
status becomes `discovered` and the previously recorded
`working_address` and `last_successful_fetch` are discarded — with no
condition on the prior record, so in particular also when it was
`connected` or `offline`. -/
theorem rediscovery_resets_record (s : ServerState) (now : Int) (name : String)
    (info : ServiceInfo) (id : String) (ex : DeviceInfo)
    (hid : (lookupA info.properties "deviceId").getD name = id)
    (_hex : lookupA s.discovered_devices id = some ex) :
    lookupA (addService s now name (some info)).discovered_devices id =
      some (mkDeviceInfo now name info) ∧
    (mkDeviceInfo now name info).status = "discovered" ∧
    (mkDeviceInfo now name info).working_address = none ∧
    (mkDeviceInfo now name info).last_successful_fetch = none := by
  refine ⟨?_, rfl, rfl, rfl⟩
  have hdid : (mkDeviceInfo now name info).id = id := by
    simp [mkDeviceInfo, hid]
  simp only [addService]
  rw [hdid]
  exact lookupA_setA_self _ id _

/-- C10 witness: re-announcing a connected record with a recorded
working pair resets it to a fresh `discovered` record. -/
theorem rediscovery_resets_record_witness :
    lookupA (addService state10 3 "svc1._uwbnav-http._tcp.local."
        (some infoC10)).discovered_devices "d1" =
      some (mkDeviceInfo 3 "svc1._uwbnav-http._tcp.local." infoC10) :=
  (rediscovery_resets_record state10 3 "svc1._uwbnav-http._tcp.local." infoC10 "d1"
    devConnectedFull (by decide) (by decide)).1

theorem buildCachedData_status_default (ω : HttpOracle) (now : Int) (id : String)
    (dinfo : DeviceInfo) (a : String) (p : Nat)
    (hfail : ∀ v, ω.statusGet a p ≠ ObjResp.resp 200 (some v)) :
    (buildCachedData ω now id dinfo a p).status = StatusData.empty := by
  simp only [buildCachedData]
  cases hres : ω.statusGet a p with
  | exn => rfl
  | resp code body =>
      by_cases hcode : code = 200
      · subst hcode
        cases body with
        | some v => exact absurd hres (hfail v)
        | none => simp
      · simp [hcode]

theorem buildCachedData_anchors_default (ω : HttpOracle) (now : Int) (id : String)
    (dinfo : DeviceInfo) (a : String) (p : Nat)
    (hfail : ∀ xs, ω.anchorsGet a p ≠ ListResp.resp 200 (ListBody.list xs)) :
    (buildCachedData ω now id dinfo a p).anchors = [] := by
  simp only [buildCachedData]
  cases hres : ω.anchorsGet a p with
  | exn => rfl
  | resp code body =>
      by_cases hcode : code = 200
      · subst hcode
        cases body with
        | list xs => exact absurd hres (hfail xs)
        | parseErr => simp
        | notList => simp
      · simp [hcode]

theorem buildCachedData_navigators_default (ω : HttpOracle) (now : Int) (id : String)
    (dinfo : DeviceInfo) (a : String) (p : Nat)
    (hfail : ∀ xs, ω.navigatorsGet a p ≠ ListResp.resp 200 (ListBody.list xs)) :
    (buildCachedData ω now id dinfo a p).navigators = [] := by
  simp only [buildCachedData]
  cases hres : ω.navigatorsGet a p with
  | exn => rfl
  | resp code body =>
      by_cases hcode : code = 200
      · subst hcode
        cases body with
        | list xs => exact absurd hres (hfail xs)
        | parseErr => simp
        | notList => simp
      · simp [hcode]

theorem buildCachedData_distances_default (ω : HttpOracle) (now : Int) (id : String)
    (dinfo : DeviceInfo) (a : String) (p : Nat)
    (hfail : ∀ v, ω.distancesGet a p ≠ ObjResp.resp 200 (some v)) :
    (buildCachedData ω now id dinfo a p).distances = "" := by
  simp only [buildCachedData]
  cases hres : ω.distancesGet a p with
  | exn => rfl
  | resp code body =>
      by_cases hcode : code = 200
      · subst hcode
        cases body with
        | some v => exact absurd hres (hfail v)
        | none => simp
      · simp [hcode]

/-- C1: probing stops at the first (address, port) pair whose liveness
check succeeds: the request trace is exactly one liveness request per
failed pair before it, the liveness request at the first successful
pair, and the four data-fetch requests (status, anchors, navigators,
distances) issued there as one parallel batch; no request touches any
pair after the first success; and each sub-resource whose fetch fails
(exception, non-200, bad parse or shape) leaves its cache field at the
default empty value while the probe as a whole still succeeds. -/
theorem probe_first_success_trace (ω : HttpOracle) (now : Int) (id : String)
    (d : DeviceInfo) (s : ServerState) (pre post : List (String × Nat))
    (a : String) (p : Nat)
    (hd : lookupA s.discovered_devices id = some d)
    (hoff : d.status ≠ "offline")
    (hpairs : pairsToTry d = pre ++ (a, p) :: post)
    (hpre : ∀ q ∈ pre, livenessOk ω q.1 q.2 = false)
    (hlive : livenessOk ω a p = true)
    (hnodup : (pairsToTry d).Nodup) :
    (fetchDeviceData ω now id s).2 =
      pre.map livenessReq ++ (livenessReq (a, p) :: dataReqs a p) ∧
    (∀ q ∈ post, ∀ req ∈ (fetchDeviceData ω now id s).2, (req.address, req.port) ≠ q) ∧
    lookupA (fetchDeviceData ω now id s).1.device_data_cache id =
      some (buildCachedData ω now id (connectRecord now d a p) a p) ∧
    ((∀ v, ω.statusGet a p ≠ ObjResp.resp 200 (some v)) →
      (buildCachedData ω now id (connectRecord now d a p) a p).status = StatusData.empty) ∧
    ((∀ xs, ω.anchorsGet a p ≠ ListResp.resp 200 (ListBody.list xs)) →
      (buildCachedData ω now id (connectRecord now d a p) a p).anchors = []) ∧
    ((∀ xs, ω.navigatorsGet a p ≠ ListResp.resp 200 (ListBody.list xs)) →
      (buildCachedData ω now id (connectRecord now d a p) a p).navigators = []) ∧
    ((∀ v, ω.distancesGet a p ≠ ObjResp.resp 200 (some v)) →
      (buildCachedData ω now id (connectRecord now d a p) a p).distances = "") := by
  have heq := fetch_success_eq ω now id d s pre post a p hd hoff hpairs hpre hlive
  rw [hpairs] at hnodup
  rw [List.nodup_append] at hnodup
  obtain ⟨hnpre, hncons, hdisj⟩ := hnodup
  refine ⟨by rw [heq], ?_, ?_, ?_, ?_, ?_, ?_⟩
  · intro q hq req hreq
    rw [heq] at hreq
    rcases List.mem_append.mp hreq with hreq | hreq
    · obtain ⟨q', hq', hq'eq⟩ := List.mem_map.mp hreq
      have hrq : (req.address, req.port) = q' := by
        rw [← hq'eq]
        rfl
      rw [hrq]
      intro hcontra
      exact hdisj hq' (hcontra ▸ List.mem_cons_of_mem _ hq)
    · have haddr2 : (req.address, req.port) = (a, p) := by
        rcases List.mem_cons.mp hreq with h | h
        · subst h; rfl
        · simp only [dataReqs, List.mem_cons, List.not_mem_nil, or_false] at h
          rcases h with h | h | h | h <;> (subst h; rfl)
      rw [haddr2]
      intro hcontra
      exact (List.nodup_cons.mp hncons).1 (hcontra ▸ hq)
  · rw [heq]
    simp only [successState]
    exact lookupA_setA_self _ id _
  · exact buildCachedData_status_default ω now id _ a p
  · exact buildCachedData_anchors_default ω now id _ a p
  · exact buildCachedData_navigators_default ω now id _ a p
  · exact buildCachedData_distances_default ω now id _ a p

/-- C1 witness: with only `10.0.0.5:8081` alive, the trace is the
failed liveness probe of `10.0.0.5:8080`, the successful liveness probe
of `10.0.0.5:8081`, then the four parallel data requests there; the six
pairs after the success in probe order are never contacted. -/
theorem probe_first_success_trace_witness :
    (fetchDeviceData oracle1 5 "d1" state1).2 =
      [("10.0.0.5", (8080 : Nat))].map livenessReq ++
        (livenessReq ("10.0.0.5", 8081) :: dataReqs "10.0.0.5" 8081) :=
  (probe_first_success_trace oracle1 5 "d1" deviceNoPort state1
    [("10.0.0.5", 8080)]
    [("10.0.0.5", 8082), ("10.0.0.5", 8083), ("[fe80::1]", 8080),
     ("[fe80::1]", 8081), ("[fe80::1]", 8082), ("[fe80::1]", 8083)]
    "10.0.0.5" 8081 (by decide) (by decide) (by decide) (by decide)
    (by decide) (by decide)).1

/-- C6 counterexample: after a probe in which every pair fails, the
record's status is `error` but its error-detail slot is still `none` —
the accumulated error list is only logged, never recorded on the
record, whereas the claim requires it recorded as the peer's error
detail. -/
theorem exhaustion_error_detail_cex :
    (lookupA (fetchDeviceData failOracle 9 "d1" state6).1.discovered_devices "d1").map
        DeviceInfo.status = some "error" ∧
    (lookupA (fetchDeviceData failOracle 9 "d1" state6).1.discovered_devices "d1").map
        DeviceInfo.last_error_detail = some none := by
  refine ⟨by decide, by decide⟩

/-- C6 (amended): when every (address, port) pair fails the liveness
check, the probe marks the record `error` (touching no other field, in
particular recording no error detail — the attempted pairs appear only
in the request trace and the log), leaves the telemetry cache
untouched, and the cached entry remains readable through the
aggregator: the snapshot's devices list carries this peer with status
`error` and the battery level from its retained cache entry. -/
theorem exhaustion_retains_cache (ω : HttpOracle) (now now2 : Int) (id : String)
    (d : DeviceInfo) (s : ServerState)
    (hd : lookupA s.discovered_devices id = some d)
    (hoff : d.status ≠ "offline")
    (haddr : addressesToTry d ≠ [])
    (hfail : ∀ q ∈ pairsToTry d, livenessOk ω q.1 q.2 = false) :
    (fetchDeviceData ω now id s).1.device_data_cache = s.device_data_cache ∧
    lookupA (fetchDeviceData ω now id s).1.discovered_devices id =
      some { d with status := "error" } ∧
    ({ d with status := "error" } : DeviceInfo).last_error_detail = d.last_error_detail ∧
    (fetchDeviceData ω now id s).2 = (pairsToTry d).map livenessReq ∧
    mkSummary (fetchDeviceData ω now id s).1.device_data_cache id
        { d with status := "error" } ∈
      (getAggregatedData (fetchDeviceData ω now id s).1 now2).devices ∧
    (mkSummary (fetchDeviceData ω now id s).1.device_data_cache id
        { d with status := "error" }).status = "error" ∧
    (mkSummary (fetchDeviceData ω now id s).1.device_data_cache id
        { d with status := "error" }).battery =
      (lookupA s.device_data_cache id).bind (fun c => c.status.batteryLevel) := by
  have heq := fetch_exhaust_eq ω now id d s hd hoff haddr hfail
  rw [heq]
  refine ⟨rfl, ?_, rfl, rfl, ?_, rfl, rfl⟩
  · simp only [exhaustedState]
    exact lookupA_setA_self _ id _
  · have hlook : lookupA (exhaustedState id d s).discovered_devices id =
        some { d with status := "error" } := by
      simp only [exhaustedState]
      exact lookupA_setA_self _ id _
    have hmem := lookupA_mem _ _ _ hlook
    exact List.mem_map_of_mem
      (fun p => mkSummary (exhaustedState id d s).device_data_cache p.1 p.2) hmem

/-- C6 witness: the all-fail probe on a device with a cached entry. -/
theorem exhaustion_retains_cache_witness :
    (fetchDeviceData failOracle 9 "d1" state6).1.device_data_cache =
      state6.device_data_cache :=
  (exhaustion_retains_cache failOracle 9 10 "d1" deviceD1 state6
    (by decide) (by decide) (by decide) (by decide)).1

/-- C7 counterexample: after a successful probe, the observable
per-peer attempt log is still empty — the source maintains no
AttemptLog — whereas the claim requires the probe to have appended an
attempt entry to a bounded ring (which is never empty after an
append). -/
theorem attempt_log_missing_cex :
    attemptLog (fetchDeviceData oracle1 5 "d1" state1).1 "d1" = [] ∧
    specAppendAttempt
        ⟨["10.0.0.5", "[fe80::1]"], [8080, 8081, 8082, 8083], true,
         some "http://10.0.0.5:8081"⟩ (attemptLog state1 "d1") ≠ [] ∧
    attemptLog (fetchDeviceData oracle1 5 "d1" state1).1 "d1" ≠
      specAppendAttempt
        ⟨["10.0.0.5", "[fe80::1]"], [8080, 8081, 8082, 8083], true,
         some "http://10.0.0.5:8081"⟩ (attemptLog state1 "d1") := by
  refine ⟨rfl, by decide, by decide⟩

/-- C7 (amended): on a successful probe the engine writes a fresh cache
entry stamped with the fetch time, marks the record `connected`,
records the working address, working port and success time on the
record, and triggers exactly one broadcast; no attempt log exists —
the per-peer attempt log observable in the state stays empty. -/
theorem success_updates_state (ω : HttpOracle) (now : Int) (id : String)
    (d : DeviceInfo) (s : ServerState) (pre post : List (String × Nat))
    (a : String) (p : Nat)
    (hd : lookupA s.discovered_devices id = some d)
    (hoff : d.status ≠ "offline")
    (hpairs : pairsToTry d = pre ++ (a, p) :: post)
    (hpre : ∀ q ∈ pre, livenessOk ω q.1 q.2 = false)
    (hlive : livenessOk ω a p = true) :
    lookupA (fetchDeviceData ω now id s).1.discovered_devices id =
      some (connectRecord now d a p) ∧
    (connectRecord now d a p).status = "connected" ∧
    (connectRecord now d a p).working_address = some a ∧
    (connectRecord now d a p).port = some p ∧
    (connectRecord now d a p).last_successful_fetch = some now ∧
    lookupA (fetchDeviceData ω now id s).1.device_data_cache id =
      some (buildCachedData ω now id (connectRecord now d a p) a p) ∧
    (buildCachedData ω now id (connectRecord now d a p) a p).timestamp = now ∧
    (fetchDeviceData ω now id s).1.broadcasts = s.broadcasts + 1 ∧
    attemptLog (fetchDeviceData ω now id s).1 id = [] := by
  have heq := fetch_success_eq ω now id d s pre post a p hd hoff hpairs hpre hlive
  rw [heq]
  refine ⟨?_, rfl, rfl, rfl, rfl, ?_, rfl, rfl, rfl⟩
  · simp only [successState]
    exact lookupA_setA_self _ id _
  · simp only [successState]
    exact lookupA_setA_self _ id _

/-- C7 witness: the success-path writes at the concrete probe. -/
theorem success_updates_state_witness :
    (fetchDeviceData oracle1 5 "d1" state1).1.broadcasts = state1.broadcasts + 1 :=
  (success_updates_state oracle1 5 "d1" deviceNoPort state1
    [("10.0.0.5", 8080)]
    [("10.0.0.5", 8082), ("10.0.0.5", 8083), ("[fe80::1]", 8080),
     ("[fe80::1]", 8081), ("[fe80::1]", 8082), ("[fe80::1]", 8083)]
    "10.0.0.5" 8081 (by decide) (by decide) (by decide) (by decide)
    (by decide)).2.2.2.2.2.2.2.1

/-- C8 counterexample: an announcement whose addresses are all
unparseable registers the record and the scheduled probe marks it
`error`, but no "no addresses" error detail is recorded on the record
(the message is only logged), whereas the claim requires the record to
carry one. -/
theorem no_addresses_detail_cex :
    (lookupA (fetchDeviceData failOracle 8 "d8"
        (addService state0 7 "svc8" (some noAddrInfo))).1.discovered_devices "d8").map
      DeviceInfo.status = some "error" ∧
    (lookupA (fetchDeviceData failOracle 8 "d8"
        (addService state0 7 "svc8" (some noAddrInfo))).1.discovered_devices "d8").map
      DeviceInfo.addresses = some (some ⟨none, none⟩) ∧
    (lookupA (fetchDeviceData failOracle 8 "d8"
        (addService state0 7 "svc8" (some noAddrInfo))).1.discovered_devices "d8").map
      DeviceInfo.last_error_detail = some none := by
  refine ⟨by decide, by decide, by decide⟩

/-- C8 (amended): an announcement with zero parseable addresses still
registers a record for its PeerId, with an empty AddressSet and no
primary ip, initially in `discovered` state; the scheduled probe then
issues no HTTP request and flips only the status to `error`; the
"no addresses" condition is only logged — no error detail is recorded
on the record. -/
theorem no_addresses_registers (s : ServerState) (now now2 : Int) (name : String)
    (info : ServiceInfo) (id : String) (ω : HttpOracle)
    (hparse : parseAddresses info.addresses = ⟨none, none⟩)
    (hid : (lookupA info.properties "deviceId").getD name = id) :
    lookupA (addService s now name (some info)).discovered_devices id =
      some (mkDeviceInfo now name info) ∧
    (mkDeviceInfo now name info).addresses = some ⟨none, none⟩ ∧
    (mkDeviceInfo now name info).ip = none ∧
    (mkDeviceInfo now name info).status = "discovered" ∧
    (mkDeviceInfo now name info).last_error_detail = none ∧
    (fetchDeviceData ω now2 id (addService s now name (some info))).2 = [] ∧
    lookupA (fetchDeviceData ω now2 id
        (addService s now name (some info))).1.discovered_devices id =
      some { mkDeviceInfo now name info with status := "error" } ∧
    ({ mkDeviceInfo now name info with status := "error" } : DeviceInfo).last_error_detail =
      none := by
  have hdid : (mkDeviceInfo now name info).id = id := by
    simp [mkDeviceInfo, hid]
  have h1 : lookupA (addService s now name (some info)).discovered_devices id =
      some (mkDeviceInfo now name info) := by
    simp only [addService]
    rw [hdid]
    exact lookupA_setA_self _ id _
  have haddr : addressesToTry (mkDeviceInfo now name info) = [] := by
    simp [addressesToTry, mkDeviceInfo, hparse, AddrSet.isTruthy, firstSome, strTruthy]
  have hstat : ¬((mkDeviceInfo now name info).status = "offline") := by
    simp [mkDeviceInfo]
  have hfetch : fetchDeviceData ω now2 id (addService s now name (some info)) =
      ({ addService s now name (some info) with
         discovered_devices :=
           setA (addService s now name (some info)).discovered_devices id
             { mkDeviceInfo now name info with status := "error" } }, []) := by
    simp only [fetchDeviceData]
    rw [h1]
    simp [hstat, haddr]
  refine ⟨h1, ?_, ?_, rfl, rfl, ?_, ?_, rfl⟩
  · simp [mkDeviceInfo, hparse]
  · simp [mkDeviceInfo, hparse, firstSome]
  · rw [hfetch]
  · rw [hfetch]
    exact lookupA_setA_self _ id _

/-- C8 witness: the concrete announcement with only unparseable
addresses, followed by its probe. -/
theorem no_addresses_registers_witness :
    lookupA (addService state0 7 "svc8" (some noAddrInfo)).discovered_devices "d8" =
      some (mkDeviceInfo 7 "svc8" noAddrInfo) :=
  (no_addresses_registers state0 7 8 "svc8" noAddrInfo "d8" failOracle
    (by decide) (by decide)).1

/-- C4: when an announcement arrives for a PeerId whose prior record
carries a different source name, and exactly one other registry record
shares that prior source name, the eviction step deletes exactly that
one record: the eviction equals a filter removing only its key, its
entry is gone afterwards, every record under any other key (besides the
announcing PeerId's own, which the subsequent upsert overwrites) is
unchanged, and the cache and broadcast state are untouched. -/
theorem duplicate_eviction_exact (s : ServerState) (now : Int) (name : String)
    (info : ServiceInfo) (device_id did0 : String) (ex : DeviceInfo)
    (hid : (lookupA info.properties "deviceId").getD name = device_id)
    (hex : lookupA s.discovered_devices device_id = some ex)
    (hname : ex.service_name ≠ name)
    (hdid0 : did0 ≠ device_id)
    (huniq : ∀ p ∈ s.discovered_devices,
      ((p.2.service_name = ex.service_name ∧ p.1 ≠ device_id) ↔ p.1 = did0)) :
    evictDuplicates s.discovered_devices device_id name =
      s.discovered_devices.filter (fun p => p.1 != did0) ∧
    lookupA (addService s now name (some info)).discovered_devices did0 = none ∧
    (∀ k, k ≠ did0 → k ≠ device_id →
      lookupA (addService s now name (some info)).discovered_devices k =
        lookupA s.discovered_devices k) ∧
    (addService s now name (some info)).device_data_cache = s.device_data_cache ∧
    (addService s now name (some info)).broadcasts = s.broadcasts := by
  have hfilter : evictDuplicates s.discovered_devices device_id name =
      s.discovered_devices.filter (fun p => p.1 != did0) := by
    simp only [evictDuplicates, hex]
    rw [if_pos hname]
    apply List.filter_congr
    intro p hp
    have h := huniq p hp
    by_cases hD : p.1 = did0
    · have hsh := h.mpr hD
      simp [hD, hsh.1, hsh.2, hdid0]
    · by_cases hA : p.2.service_name = ex.service_name
      · by_cases hB : p.1 = device_id
        · simp [hA, hB, hD, Ne.symm hdid0]
        · exact absurd (h.mp ⟨hA, hB⟩) hD
      · simp [bne, beq_eq_false_iff_ne.mpr hA, beq_eq_false_iff_ne.mpr hD]
  have hdid2 : (mkDeviceInfo now name info).id = device_id := by
    simp [mkDeviceInfo, hid]
  have hdevices : (addService s now name (some info)).discovered_devices =
      setA (s.discovered_devices.filter (fun p => p.1 != did0)) device_id
        (mkDeviceInfo now name info) := by
    simp only [addService]
    rw [hdid2, hfilter]
  refine ⟨hfilter, ?_, ?_, rfl, rfl⟩
  · rw [hdevices, lookupA_setA_ne _ _ _ _ hdid0]
    apply lookupA_filter_none
    intro p _ hpk
    simp [hpk]
  · intro k hk0 hkid
    rw [hdevices, lookupA_setA_ne _ _ _ _ hkid]
    apply lookupA_filter_keep
    intro p _ hpk
    simp [hpk, hk0]

/-- C4 witness: the concrete registry where the stale record keyed by
the raw service name shares the prior source name `svcA`; announcing
`d1` under `svcB` evicts exactly it. -/
theorem duplicate_eviction_exact_witness :
    lookupA (addService state4 3 "svcB" (some infoC4)).discovered_devices "svcA" = none :=
  (duplicate_eviction_exact state4 3 "svcB" infoC4 "d1" "svcA" exRecD1
    (by decide) (by decide) (by decide) (by decide) (by decide)).2.1

/-! ### Aggregation lemmas -/

theorem placeholder_fold :
    ∀ (l : List (String × DeviceInfo)) (A N : List Item),
      l.foldl placeholderStep (A, N) =
        (A ++ (l.filter anchorCond).map (fun p => anchorPlaceholder p.1 p.2),
         N ++ (l.filter navCond).map (fun p => navigatorPlaceholder p.1 p.2))
  | [], A, N => by simp
  | p :: rest, A, N => by
      have ih := placeholder_fold rest
      by_cases herr : statusErrLike p.2.status
      · by_cases ha : p.2.role = "anchor"
        · have hstep : placeholderStep (A, N) p = (A ++ [anchorPlaceholder p.1 p.2], N) := by
            simp [placeholderStep, herr, ha]
          have hc : anchorCond p = true := by simp [anchorCond, herr, ha]
          have hn : navCond p = false := by simp [navCond, ha]
          simp only [List.foldl_cons, hstep, List.filter_cons, hc, hn, if_true, if_false]
          rw [ih]
          simp
        · by_cases hv : p.2.role = "navigator"
          · have hstep : placeholderStep (A, N) p =
                (A, N ++ [navigatorPlaceholder p.1 p.2]) := by
              simp [placeholderStep, herr, ha, hv]
            have hc : anchorCond p = false := by simp [anchorCond, ha]
            have hn : navCond p = true := by simp [navCond, herr, hv]
            simp only [List.foldl_cons, hstep, List.filter_cons, hc, hn, if_true, if_false]
            rw [ih]
            simp
          · have hstep : placeholderStep (A, N) p = (A, N) := by
              simp [placeholderStep, herr, ha, hv]
            have hc : anchorCond p = false := by simp [anchorCond, ha]
            have hn : navCond p = false := by simp [navCond, hv]
            simp only [List.foldl_cons, hstep, List.filter_cons, hc, hn, if_false]
            exact ih A N
      · have hstep : placeholderStep (A, N) p = (A, N) := by
          simp [placeholderStep, herr]
        have hc : anchorCond p = false := by simp [anchorCond, herr]
        have hn : navCond p = false := by simp [navCond, herr]
        simp only [List.foldl_cons, hstep, List.filter_cons, hc, hn, if_false]
        exact ih A N

theorem addCached_filter_invariant (x : String) (lst : List Item) (item : Item)
    (h : hasId x item = false) :
    (addCached lst item).filter (hasId x) = lst.filter (hasId x) := by
  unfold addCached
  split
  · rfl
  · simp [List.filter_append, h]

theorem items_fold_filter (x : String) (f : Item → Item) (hf : ∀ a, (f a).id = a.id) :
    ∀ (items lst : List Item), (∀ a ∈ items, a.id ≠ some x) →
      (items.foldl (fun l a => addCached l (f a)) lst).filter (hasId x) =
        lst.filter (hasId x)
  | [], _, _ => by simp
  | a :: items, lst, h => by
      have ha : hasId x (f a) = false := by
        simp only [hasId, hf a]
        exact beq_eq_false_iff_ne.mpr (h a (by simp))
      have ih := items_fold_filter x f hf items (addCached lst (f a))
        (fun b hb => h b (by simp [hb]))
      simp only [List.foldl_cons]
      rw [ih, addCached_filter_invariant x lst (f a) ha]

theorem cache_fold_filter_anchors (x : String) (devs : List (String × DeviceInfo)) :
    ∀ (cacheL : List (String × CachedData)) (acc : List Item × List Item),
      (∀ e ∈ cacheL, ∀ a ∈ e.2.anchors, a.id ≠ some x) →
      ((cacheL.foldl (cacheStep devs) acc).1).filter (hasId x) = acc.1.filter (hasId x)
  | [], _, _ => by simp
  | e :: cacheL, acc, h => by
      have ih := cache_fold_filter_anchors x devs cacheL (cacheStep devs acc e)
        (fun e' he' => h e' (by simp [he']))
      simp only [List.foldl_cons]
      rw [ih]
      show ((cacheStep devs acc e).1).filter (hasId x) = acc.1.filter (hasId x)
      have hfst : (cacheStep devs acc e).1 =
          e.2.anchors.foldl
            (fun lst a =>
              addCached lst (withSource (sourceEmail devs e.1) (sourceIpOf devs e.1) a))
            acc.1 := rfl
      rw [hfst]
      exact items_fold_filter x (withSource (sourceEmail devs e.1) (sourceIpOf devs e.1))
        (fun a => rfl) e.2.anchors acc.1 (h e (by simp))

theorem hasId_anchorPlaceholder (x k : String) (d : DeviceInfo) :
    hasId x (anchorPlaceholder k d) = (k == x) := by
  by_cases hkx : k = x
  · simp [hasId, anchorPlaceholder, hkx]
  · simp [hasId, anchorPlaceholder, hkx]

theorem placeholder_filter_nil (x : String) (rest : List (String × DeviceInfo))
    (h : ∀ q ∈ rest, q.1 ≠ x) :
    ((rest.filter anchorCond).map (fun p => anchorPlaceholder p.1 p.2)).filter
      (hasId x) = [] := by
  apply List.filter_eq_nil_iff.mpr
  intro a ha
  obtain ⟨q, hq, hmap⟩ := List.mem_map.mp ha
  rw [← hmap, hasId_anchorPlaceholder]
  simp only [Bool.not_eq_true]
  exact beq_eq_false_iff_ne.mpr (h q (List.mem_of_mem_filter hq))

theorem placeholder_filter_single (x : String) (d : DeviceInfo) :
    ∀ l : List (String × DeviceInfo), (l.map Prod.fst).Nodup → (x, d) ∈ l →
      anchorCond (x, d) = true →
      ((l.filter anchorCond).map (fun p => anchorPlaceholder p.1 p.2)).filter (hasId x) =
        [anchorPlaceholder x d]
  | [], _, hmem, _ => absurd hmem (List.not_mem_nil _)
  | p :: rest, hnodup, hmem, hcond => by
      simp only [List.map_cons] at hnodup
      have hhead := (List.nodup_cons.mp hnodup).1
      have htail := (List.nodup_cons.mp hnodup).2
      rcases List.mem_cons.mp hmem with heq | hmem'
      · rw [← heq] at hhead ⊢
        have hx_not : ∀ q ∈ rest, q.1 ≠ x := by
          intro q hq hqx
          apply hhead
          show x ∈ List.map Prod.fst rest
          rw [← hqx]
          exact List.mem_map_of_mem Prod.fst hq
        have hself : hasId x (anchorPlaceholder x d) = true := by
          rw [hasId_anchorPlaceholder]
          simp
        simp [List.filter_cons, hcond, List.map_cons, hself,
          placeholder_filter_nil x rest hx_not]
      · have hkey : p.1 ≠ x := by
          intro hpx
          apply hhead
          rw [hpx]
          have := List.mem_map_of_mem Prod.fst hmem'
          simpa using this
        have ih := placeholder_filter_single x d rest htail hmem' hcond
        by_cases hc : anchorCond p
        · have hdrop : hasId x (anchorPlaceholder p.1 p.2) = false := by
            rw [hasId_anchorPlaceholder]
            exact beq_eq_false_iff_ne.mpr hkey
          simp [List.filter_cons, hc, List.map_cons, hdrop, ih]
        · have hc' : anchorCond p = false := by
            simpa using hc
          simp [List.filter_cons, hc', ih]

theorem cache_fold_filter_navigators (x : String) (devs : List (String × DeviceInfo)) :
    ∀ (cacheL : List (String × CachedData)) (acc : List Item × List Item),
      (∀ e ∈ cacheL, ∀ n ∈ e.2.navigators, n.id ≠ some x) →
      ((cacheL.foldl (cacheStep devs) acc).2).filter (hasId x) = acc.2.filter (hasId x)
  | [], _, _ => by simp
  | e :: cacheL, acc, h => by
      have ih := cache_fold_filter_navigators x devs cacheL (cacheStep devs acc e)
        (fun e' he' => h e' (by simp [he']))
      simp only [List.foldl_cons]
      rw [ih]
      show ((cacheStep devs acc e).2).filter (hasId x) = acc.2.filter (hasId x)
      have hsnd : (cacheStep devs acc e).2 =
          e.2.navigators.foldl
            (fun lst n =>
              addCached lst (withSource (sourceEmail devs e.1) (sourceIpOf devs e.1) n))
            acc.2 := rfl
      rw [hsnd]
      exact items_fold_filter x (withSource (sourceEmail devs e.1) (sourceIpOf devs e.1))
        (fun a => rfl) e.2.navigators acc.2 (h e (by simp))

theorem hasId_navigatorPlaceholder (x k : String) (d : DeviceInfo) :
    hasId x (navigatorPlaceholder k d) = (k == x) := by
  by_cases hkx : k = x
  · simp [hasId, navigatorPlaceholder, hkx]
  · simp [hasId, navigatorPlaceholder, hkx]

theorem navPlaceholder_filter_nil (x : String) (rest : List (String × DeviceInfo))
    (h : ∀ q ∈ rest, q.1 ≠ x) :
    ((rest.filter navCond).map (fun p => navigatorPlaceholder p.1 p.2)).filter
      (hasId x) = [] := by
  apply List.filter_eq_nil_iff.mpr
  intro a ha
  obtain ⟨q, hq, hmap⟩ := List.mem_map.mp ha
  rw [← hmap, hasId_navigatorPlaceholder]
  simp only [Bool.not_eq_true]
  exact beq_eq_false_iff_ne.mpr (h q (List.mem_of_mem_filter hq))

theorem navPlaceholder_filter_single (x : String) (d : DeviceInfo) :
    ∀ l : List (String × DeviceInfo), (l.map Prod.fst).Nodup → (x, d) ∈ l →
      navCond (x, d) = true →
      ((l.filter navCond).map (fun p => navigatorPlaceholder p.1 p.2)).filter (hasId x) =
        [navigatorPlaceholder x d]
  | [], _, hmem, _ => absurd hmem (List.not_mem_nil _)
  | p :: rest, hnodup, hmem, hcond => by
      simp only [List.map_cons] at hnodup
      have hhead := (List.nodup_cons.mp hnodup).1
      have htail := (List.nodup_cons.mp hnodup).2
      rcases List.mem_cons.mp hmem with heq | hmem'
      · rw [← heq] at hhead ⊢
        have hx_not : ∀ q ∈ rest, q.1 ≠ x := by
          intro q hq hqx
          apply hhead
          show x ∈ List.map Prod.fst rest
          rw [← hqx]
          exact List.mem_map_of_mem Prod.fst hq
        have hself : hasId x (navigatorPlaceholder x d) = true := by
          rw [hasId_navigatorPlaceholder]
          simp
        simp [List.filter_cons, hcond, List.map_cons, hself,
          navPlaceholder_filter_nil x rest hx_not]
      · have hkey : p.1 ≠ x := by
          intro hpx
          apply hhead
          rw [hpx]
          have := List.mem_map_of_mem Prod.fst hmem'
          simpa using this
        have ih := navPlaceholder_filter_single x d rest htail hmem' hcond
        by_cases hc : navCond p
        · have hdrop : hasId x (navigatorPlaceholder p.1 p.2) = false := by
            rw [hasId_navigatorPlaceholder]
            exact beq_eq_false_iff_ne.mpr hkey
          simp [List.filter_cons, hc, List.map_cons, hdrop, ih]
        · have hc' : navCond p = false := by
            simpa using hc
          simp [List.filter_cons, hc', ih]

/-! ### Agreement of the total merge with the KeyError-faithful merge -/

theorem anyIdMatchE_agrees (x : Option String) :
    ∀ lst : List Item, (∀ a ∈ lst, a.id.isSome = true) →
      anyIdMatchE lst x = Except.ok (lst.any (fun b => b.id == x))
  | [], _ => rfl
  | a :: lst, h => by
      obtain ⟨s, hs⟩ := Option.isSome_iff_exists.mp (h a (by simp))
      have ih := anyIdMatchE_agrees x lst (fun b hb => h b (by simp [hb]))
      simp only [anyIdMatchE, hs, List.any_cons]
      by_cases hxs : x = some s
      · subst hxs
        simp [hs]
      · have hfalse : (some s == x) = false :=
          beq_eq_false_iff_ne.mpr (fun hh => hxs hh.symm)
        rw [if_neg hxs, ih, hfalse, Bool.false_or]

theorem addCachedE_agrees (lst : List Item) (item : Item)
    (h : ∀ a ∈ lst, a.id.isSome = true) :
    addCachedE lst item = Except.ok (addCached lst item) := by
  unfold addCachedE addCached
  rw [anyIdMatchE_agrees item.id lst h]
  cases hany : lst.any (fun b => b.id == item.id) <;> simp [hany]

theorem addCached_ids (lst : List Item) (item : Item)
    (hl : ∀ a ∈ lst, a.id.isSome = true) (hi : item.id.isSome = true) :
    ∀ a ∈ addCached lst item, a.id.isSome = true := by
  unfold addCached
  split
  · exact hl
  · intro a ha
    rcases List.mem_append.mp ha with h | h
    · exact hl a h
    · rw [List.mem_singleton.mp h]
      exact hi

theorem items_foldM_agrees (f : Item → Item) (hf : ∀ a, (f a).id = a.id) :
    ∀ (items lst : List Item), (∀ a ∈ lst, a.id.isSome = true) →
      (∀ a ∈ items, a.id.isSome = true) →
      items.foldlM (fun l a => addCachedE l (f a)) lst =
        Except.ok (items.foldl (fun l a => addCached l (f a)) lst) ∧
      (∀ a ∈ items.foldl (fun l a => addCached l (f a)) lst, a.id.isSome = true)
  | [], lst, hl, _ => ⟨rfl, hl⟩
  | a :: items, lst, hl, hi => by
      have hfa : (f a).id.isSome = true := by
        rw [hf a]
        exact hi a (by simp)
      have hstep := addCachedE_agrees lst (f a) hl
      have hl' := addCached_ids lst (f a) hl hfa
      have ih := items_foldM_agrees f hf items (addCached lst (f a)) hl'
        (fun b hb => hi b (by simp [hb]))
      refine ⟨?_, ?_⟩
      · simp only [List.foldlM, List.foldl, hstep]
        exact ih.1
      · simp only [List.foldl]
        exact ih.2

theorem cacheStep_agrees (devs : List (String × DeviceInfo)) (acc : List Item × List Item)
    (e : String × CachedData)
    (hA : ∀ a ∈ acc.1, a.id.isSome = true) (hN : ∀ n ∈ acc.2, n.id.isSome = true)
    (heA : ∀ a ∈ e.2.anchors, a.id.isSome = true)
    (heN : ∀ n ∈ e.2.navigators, n.id.isSome = true) :
    cacheStepE devs acc e = Except.ok (cacheStep devs acc e) ∧
    (∀ a ∈ (cacheStep devs acc e).1, a.id.isSome = true) ∧
    (∀ n ∈ (cacheStep devs acc e).2, n.id.isSome = true) := by
  have hAn := items_foldM_agrees (withSource (sourceEmail devs e.1) (sourceIpOf devs e.1))
    (fun a => rfl) e.2.anchors acc.1 hA heA
  have hNav := items_foldM_agrees (withSource (sourceEmail devs e.1) (sourceIpOf devs e.1))
    (fun a => rfl) e.2.navigators acc.2 hN heN
  refine ⟨?_, hAn.2, hNav.2⟩
  simp only [cacheStepE, hAn.1, hNav.1]
  rfl

theorem cache_foldM_agrees (devs : List (String × DeviceInfo)) :
    ∀ (cacheL : List (String × CachedData)) (acc : List Item × List Item),
      (∀ a ∈ acc.1, a.id.isSome = true) → (∀ n ∈ acc.2, n.id.isSome = true) →
      (∀ e ∈ cacheL, (∀ a ∈ e.2.anchors, a.id.isSome = true) ∧
        (∀ n ∈ e.2.navigators, n.id.isSome = true)) →
      cacheL.foldlM (cacheStepE devs) acc =
        Except.ok (cacheL.foldl (cacheStep devs) acc)
  | [], _, _, _, _ => rfl
  | e :: cacheL, acc, hA, hN, hc => by
      have hstep := cacheStep_agrees devs acc e hA hN (hc e (by simp)).1 (hc e (by simp)).2
      have ih := cache_foldM_agrees devs cacheL (cacheStep devs acc e) hstep.2.1 hstep.2.2
        (fun e' he' => hc e' (by simp [he']))
      simp only [List.foldlM, List.foldl, hstep.1]
      exact ih

theorem placeholderList_ids (l : List (String × DeviceInfo)) :
    (∀ a ∈ (l.foldl placeholderStep (([] : List Item), ([] : List Item))).1,
      a.id.isSome = true) ∧
    (∀ n ∈ (l.foldl placeholderStep (([] : List Item), ([] : List Item))).2,
      n.id.isSome = true) := by
  rw [placeholder_fold]
  constructor
  · intro a ha
    simp at ha
    obtain ⟨q1, q2, _, hmap⟩ := ha
    rw [← hmap]
    rfl
  · intro n hn
    simp at hn
    obtain ⟨q1, q2, _, hmap⟩ := hn
    rw [← hmap]
    rfl

/-- C5: on the region where every cached telemetry item carries an id
(outside it the source's dedupe scan `a['id']` raises KeyError and no
snapshot is produced, as `getAggregatedDataE` records), the
KeyError-faithful aggregation agrees with the total one, and a
registry record with unreachable status and role `anchor` (resp.
`navigator`) having no cached item of the corresponding list sharing
its id yields exactly one item with that id in the merged anchors
(resp. navigators) list, namely its synthesized placeholder —
placeholders are written first and the cache pass skips any item whose
id is already present (first-writer-wins dedupe by item identity). -/
theorem placeholder_synthesis_dedupe (s : ServerState) (now : Int) (x : String)
    (d : DeviceInfo)
    (hmem : (x, d) ∈ s.discovered_devices)
    (hnodup : (s.discovered_devices.map Prod.fst).Nodup)
    (herr : statusErrLike d.status = true)
    (hids : ∀ e ∈ s.device_data_cache,
      (∀ a ∈ e.2.anchors, a.id.isSome = true) ∧
      (∀ n ∈ e.2.navigators, n.id.isSome = true)) :
    getAggregatedDataE s now = Except.ok (getAggregatedData s now) ∧
    (d.role = "anchor" →
      (∀ e ∈ s.device_data_cache, ∀ a ∈ e.2.anchors, a.id ≠ some x) →
      ((getAggregatedData s now).anchors).filter (hasId x) = [anchorPlaceholder x d]) ∧
    (d.role = "navigator" →
      (∀ e ∈ s.device_data_cache, ∀ n ∈ e.2.navigators, n.id ≠ some x) →
      ((getAggregatedData s now).navigators).filter (hasId x) =
        [navigatorPlaceholder x d]) ∧
    (∀ lst itm, lst.any (fun b => b.id == itm.id) = true → addCached lst itm = lst) := by
  refine ⟨?_, ?_, ?_, ?_⟩
  · have hP := placeholderList_ids s.discovered_devices
    have hfold := cache_foldM_agrees s.discovered_devices s.device_data_cache
      (s.discovered_devices.foldl placeholderStep ([], [])) hP.1 hP.2 hids
    simp only [getAggregatedDataE, hfold]
    rfl
  · intro hrole hnocache
    show ((s.device_data_cache.foldl (cacheStep s.discovered_devices)
        (s.discovered_devices.foldl placeholderStep ([], []))).1).filter (hasId x) =
      [anchorPlaceholder x d]
    rw [cache_fold_filter_anchors x s.discovered_devices s.device_data_cache _ hnocache]
    rw [placeholder_fold]
    simp only [List.nil_append]
    exact placeholder_filter_single x d s.discovered_devices hnodup hmem
      (by simp [anchorCond, herr, hrole])
  · intro hrole hnocache
    show ((s.device_data_cache.foldl (cacheStep s.discovered_devices)
        (s.discovered_devices.foldl placeholderStep ([], []))).2).filter (hasId x) =
      [navigatorPlaceholder x d]
    rw [cache_fold_filter_navigators x s.discovered_devices s.device_data_cache _ hnocache]
    rw [placeholder_fold]
    simp only [List.nil_append]
    exact navPlaceholder_filter_single x d s.discovered_devices hnodup hmem
      (by simp [navCond, herr, hrole])
  · intro lst itm hany
    simp [addCached, hany]

/-- C5 witness: the unreachable anchor `d1` and the stale navigator
`d9`, each with cached telemetry whose only items carry different ids,
yield exactly their placeholders in the corresponding merged lists. -/
theorem placeholder_synthesis_dedupe_witness :
    ((getAggregatedData state5 3).anchors).filter (hasId "d1") =
      [anchorPlaceholder "d1" devErrAnchor] ∧
    ((getAggregatedData state5n 3).navigators).filter (hasId "d9") =
      [navigatorPlaceholder "d9" devErrNav] :=
  ⟨(placeholder_synthesis_dedupe state5 3 "d1" devErrAnchor (by decide) (by decide)
      (by decide) (by decide)).2.1 (by decide) (by decide),
   (placeholder_synthesis_dedupe state5n 3 "d9" devErrNav (by decide) (by decide)
      (by decide) (by decide)).2.2.1 (by decide) (by decide)⟩

end UWBNav
